import Mathlib

set_option maxRecDepth 100000
set_option linter.unusedVariables false

/-!
Shallow embedding of the T962a oven controller's process-control core:
the profile executor state machine, the sensor-fusion/averaging path and
the plot recording store, translated from
`Firmware/SMT_Oven_RTOS/Sources/runProfile.cpp`,
`Software/SMT_Oven_RTOS/Sources/dataPoint.h` and
`Firmware/SMT_Oven_RTOS/Sources/max31855.h`.

Temperatures and slopes are modelled as exact rationals (`Rat`); tick
counters and times are integers; the C `NAN` result of the averaging
functions is modelled as `Option.none`; fixed-point `uint16` storage is
modelled as `Nat` with an explicit `% 2^16` where the source converts.
Side effects on the external PID / actuator / timer collaborators are
modelled as an explicit list of emitted `Action`s, in source order.
-/

/-- Run state enum (`State` in dataPoint.h). -/
inductive State where
  | s_off
  | s_fail
  | s_init
  | s_preheat
  | s_soak
  | s_ramp_up
  | s_dwell
  | s_ramp_down
  | s_complete
  | s_manual
  deriving DecidableEq, Repr

/-- Thermocouple status codes (`Max31855::ThermocoupleStatus`), kept as the
raw 3-bit numeric codes used by the packed storage in dataPoint.h. -/
def TH_ENABLED : Nat := 0

/-- Status code for open-circuit probe. -/
def TH_OPEN : Nat := 1

/-- Status code for probe short to Vcc. -/
def TH_SHORT_VCC : Nat := 2

/-- Status code for probe short to Gnd. -/
def TH_SHORT_GND : Nat := 3

/-- Status code for missing device. -/
def TH_MISSING : Nat := 4

/-- Status code for available-but-disabled probe (0b111). -/
def TH_DISABLED : Nat := 7

/-- C `round` semantics: round to nearest, halves away from zero. -/
def cround (x : Rat) : Int := if 0 ≤ x then ⌊x + 1/2⌋ else ⌈x - 1/2⌉

namespace Max31855

/-- `Max31855::getEnabledReading` (max31855.h lines 200-206), modelled as the
pure post-processing it applies to the `(temperature, status)` pair produced
by the external bus read `getReading`: a `TH_DISABLED` channel has its
reported temperature forced to 0. -/
def getEnabledReading (reading : Rat × Nat) : Rat × Nat :=
  if reading.2 = TH_DISABLED then (0, reading.2) else reading

end Max31855

/-- `DataPoint` from `Software/SMT_Oven_RTOS/Sources/dataPoint.h`:
`fState_status` is the packed `uint16` holding the run state (bits 3..0) and
the four 3-bit thermocouple statuses (bits 15..4); thermocouple temperatures
are `uint16` fixed-point values (1/100 degree). -/
structure DataPoint where
  fState_status : Nat
  fHeater : Nat
  fFan : Nat
  fTargetTemp : Nat
  fThermocouples : List Nat
  deriving DecidableEq, Repr

namespace DataPoint

/-- Number of thermocouple channels (`NUM_THERMOCOUPLES`). -/
def NUM_THERMOCOUPLES : Nat := 4

/-- Fixed point scale (`FIXED_POINT_SCALE`). -/
def FIXED_POINT_SCALE : Rat := 100

/-- `DataPoint::getStatus`: extract the 3-bit status of channel `index` from
the packed word: `(fState_status >> (3*index+4)) & 0b111`. -/
def getStatus (dp : DataPoint) (index : Nat) : Nat :=
  (dp.fState_status >>> (3 * index + 4)) &&& 7

/-- `DataPoint::setTemperature`: store `round(temperature*100)` as `uint16`. -/
def setTemperature (dp : DataPoint) (index : Nat) (temperature : Rat) : DataPoint :=
  { dp with fThermocouples :=
      dp.fThermocouples.set index ((cround (temperature * FIXED_POINT_SCALE)) % 65536).toNat }

/-- `DataPoint::getAverageTemperature` (dataPoint.h lines 121-134): sum the
raw fixed-point values of the channels whose status is `TH_ENABLED`, count
them, return `NAN` (`none`) if the count is zero, otherwise
`(sum/100)/count`. -/
def getAverageTemperature (dp : DataPoint) : Option Rat :=
  let r := (List.range NUM_THERMOCOUPLES).foldl
    (fun (acc : Rat × Nat) index =>
      if dp.getStatus index = TH_ENABLED then
        (acc.1 + (dp.fThermocouples.getD index 0 : Rat), acc.2 + 1)
      else acc)
    ((0 : Rat), (0 : Nat))
  if r.2 = 0 then none else some ((r.1 / FIXED_POINT_SCALE) / (r.2 : Rat))

/-- Temperature of one recorded channel in degrees (raw fixed point / 100),
as decoded by `DataPoint::getTemperature`. -/
def channelTemp (dp : DataPoint) (index : Nat) : Rat :=
  (dp.fThermocouples.getD index 0 : Rat) / FIXED_POINT_SCALE

/-- Indices of the channels whose recorded status is `TH_ENABLED`
(the channels that contribute to the fused average). -/
def enabledIdx (dp : DataPoint) : List Nat :=
  (List.range NUM_THERMOCOUPLES).filter (fun index => dp.getStatus index = TH_ENABLED)

/-- Arithmetic mean of the contributing channels' temperatures, written the
way the spec states it (mean of the per-channel decoded temperatures). -/
def enabledMeanSpec (dp : DataPoint) : Rat :=
  ((dp.enabledIdx).map dp.channelTemp).sum / ((dp.enabledIdx).length : Rat)

end DataPoint

/-- Solder profile parameters (`NvSolderProfile`), as used by the executor:
slopes and temperatures in degrees (per tick), durations in ticks. -/
structure NvSolderProfile where
  ramp1Slope : Rat
  soakTemp1 : Rat
  soakTemp2 : Rat
  soakTime : Int
  ramp2Slope : Rat
  peakTemp : Rat
  peakDwell : Int
  rampDownSlope : Rat
  deriving DecidableEq, Repr

namespace RunProfile

/-- `MAX_PROFILE_TIME` (runProfile.cpp line 22): plot capacity in ticks. -/
def MAX_PROFILE_TIME : Nat := 9 * 60

/-- Calls the profile executor makes on its external collaborators
(PID controller, actuator duty-cycle outputs, tick timer, buzzer),
recorded in source order. -/
inductive Action where
  | pidSetSetpoint (v : Rat)
  | pidEnable (b : Bool)
  | setHeaterDutycycle (v : Nat)
  | setFanDutycycle (v : Nat)
  | timerCreate
  | timerStart
  | timerStop
  | timerDestroy
  | buzzerPlay
  deriving DecidableEq, Repr

/-- Persistent state read and written by the executor tick `handler`
(runProfile.cpp lines 670-709): the namespace variables `time`, `setpoint`,
`ambient`, `state` and the handler's static locals `startOfSoakTime`,
`startOfDwellTime`, `timeout`. -/
structure ExecState where
  state : State
  time : Int
  setpoint : Rat
  ambient : Rat
  startOfSoakTime : Int
  startOfDwellTime : Int
  timeout : Int
  deriving DecidableEq, Repr

/-- Temperature tolerance of the relaxed thresholds
(`constexpr int delta = 5` in `handler`). -/
def delta : Rat := 5

/-- The executor tick `handler` (runProfile.cpp lines 701-836), one
1-second step: `temp` is the fused temperature returned by
`getTemperature()` during this tick.  Returns the new state together with
the list of collaborator calls made, in order. -/
def handler (p : NvSolderProfile) (temp : Rat) (s0 : ExecState) : ExecState × List Action :=
  let s := { s0 with time := s0.time + 1 }
  match s.state with
  | .s_complete | .s_fail =>
      (s, [.pidSetSetpoint 0, .pidEnable false, .setHeaterDutycycle 0, .setFanDutycycle 0])
  | .s_off | .s_manual => (s, [])
  | .s_init => (s, [])
  | .s_preheat =>
      if s.setpoint < p.soakTemp1 then
        let sp := s.setpoint + p.ramp1Slope
        ({ s with setpoint := sp, timeout := 0 }, [.pidSetSetpoint sp])
      else
        let s1 :=
          if temp ≥ p.soakTemp1 ∨ (s.timeout > 5 ∧ temp ≥ p.soakTemp1 - delta) then
            { s with state := .s_soak, startOfSoakTime := s.time }
          else s
        let s2 := { s1 with timeout := s1.timeout + 1 }
        (if s2.timeout > 50 then { s2 with state := .s_fail } else s2, [])
  | .s_soak =>
      let (s1, acts) :=
        if s.setpoint < p.soakTemp2 then
          let sp := p.soakTemp1 +
            ((s.time - s.startOfSoakTime : Int) : Rat) * (p.soakTemp2 - p.soakTemp1) / (p.soakTime : Rat)
          ({ s with setpoint := sp, timeout := 0 }, [Action.pidSetSetpoint sp])
        else (s, [])
      let s2 :=
        if s1.time ≥ s1.startOfSoakTime + p.soakTime then
          if temp ≥ p.soakTemp2 ∨ (s1.timeout > 5 ∧ temp ≥ p.soakTemp2 - delta) then
            { s1 with state := .s_ramp_up }
          else
            let s3 := { s1 with timeout := s1.timeout + 1 }
            if s3.timeout > 40 then { s3 with state := .s_fail } else s3
        else s1
      (s2, acts)
  | .s_ramp_up =>
      let (s1, acts) :=
        if s.setpoint < p.peakTemp then
          let sp := s.setpoint + p.ramp2Slope
          ({ s with setpoint := sp, timeout := 0 }, [Action.pidSetSetpoint sp])
        else (s, [])
      let s2 :=
        if temp ≥ p.peakTemp - delta then
          { s1 with state := .s_dwell, startOfDwellTime := s1.time }
        else
          let s3 := { s1 with timeout := s1.timeout + 1 }
          if s3.timeout > 40 then { s3 with state := .s_fail } else s3
      (s2, acts)
  | .s_dwell =>
      (if s.time > s.startOfDwellTime + p.peakDwell then { s with state := .s_ramp_down } else s, [])
  | .s_ramp_down =>
      let s1 :=
        if s.setpoint > s.ambient then { s with setpoint := s.setpoint + p.rampDownSlope } else s
      let s2 := if temp < s1.ambient then { s1 with state := .s_complete } else s1
      (s2, [.pidSetSetpoint s1.setpoint])

namespace Draw

/-- Persistent state of the pure preview variant `Draw::calculate`
(runProfile.cpp lines 409-427): the namespace variables `state`, `time`,
`setpoint` and the static locals `startOfSoakTime`, `startOfDwellTime`. -/
structure DrawState where
  state : State
  time : Int
  setpoint : Rat
  startOfSoakTime : Int
  startOfDwellTime : Int
  deriving DecidableEq, Repr

/-- `Draw::calculate` (runProfile.cpp lines 424-488): one step of the pure
(no sensor feedback) profile preview used for plotting the target curve. -/
def calculate (p : NvSolderProfile) (s0 : DrawState) : DrawState :=
  let s := { s0 with time := s0.time + 1 }
  match s.state with
  | .s_off | .s_manual | .s_fail | .s_complete => s
  | .s_init => s
  | .s_preheat =>
      if s.setpoint < p.soakTemp1 then { s with setpoint := s.setpoint + p.ramp1Slope }
      else { s with state := .s_soak, startOfSoakTime := s.time }
  | .s_soak =>
      let s1 :=
        if s.setpoint < p.soakTemp2 then
          { s with setpoint := p.soakTemp1 +
              ((s.time - s.startOfSoakTime : Int) : Rat) * (p.soakTemp2 - p.soakTemp1) / (p.soakTime : Rat) }
        else s
      if s1.time ≥ s1.startOfSoakTime + p.soakTime then { s1 with state := .s_ramp_up } else s1
  | .s_ramp_up =>
      if s.setpoint < p.peakTemp then { s with setpoint := s.setpoint + p.ramp2Slope }
      else { s with state := .s_dwell, startOfDwellTime := s.time }
  | .s_dwell =>
      if s.time > s.startOfDwellTime + p.peakDwell then { s with state := .s_ramp_down } else s
  | .s_ramp_down =>
      if s.setpoint > 50 then { s with setpoint := s.setpoint + p.rampDownSlope }
      else { s with state := .s_off }

/-- Initial state of the preview plot loop `Draw::plot`
(runProfile.cpp lines 494-504): `state = s_preheat; time = 0; setpoint = 50.0`. -/
def drawInit : DrawState :=
  { state := .s_preheat, time := 0, setpoint := 50, startOfSoakTime := 0, startOfDwellTime := 0 }

/-- Iterate `Draw::calculate` from `drawInit`, as the loop in `Draw::plot` does. -/
def drawIter (p : NvSolderProfile) : Nat → DrawState
  | 0 => drawInit
  | n + 1 => calculate p (drawIter p n)

end Draw

end RunProfile

namespace RunProfile

/-- `DataPoint` as defined locally in runProfile.cpp (lines 24-133, firmware
variant): run state, duty cycles, a bitmask of active thermocouples, and
fixed-point `uint16` target/thermocouple temperatures. -/
structure DataPointFW where
  state : State
  heater : Nat
  fan : Nat
  activeThermocouples : Nat
  target : Nat
  thermocouples : List Nat
  deriving DecidableEq, Repr

namespace DataPointFW

/-- The all-zero record produced by `memset(data, 0, sizeof(data))`:
state code 0 is `s_off`. -/
def zeroed : DataPointFW :=
  { state := .s_off, heater := 0, fan := 0, activeThermocouples := 0,
    target := 0, thermocouples := [0, 0, 0, 0] }

/-- `DataPoint::setTarget`: `target = round(temp * FIXED_POINT_SCALE)`
stored as `uint16`. -/
def setTarget (dp : DataPointFW) (temp : Rat) : DataPointFW :=
  { dp with target := ((cround (temp * 100)) % 65536).toNat }

/-- `DataPoint::addThermocouplePoint` (runProfile.cpp lines 81-86): record
the active mask and all four fixed-point thermocouple values. -/
def addThermocouplePoint (dp : DataPointFW) (temps : List Rat) (active : Nat) : DataPointFW :=
  { dp with activeThermocouples := active,
            thermocouples := temps.map (fun t => ((cround (t * 100)) % 65536).toNat) }

end DataPointFW

/-- `Plot` (runProfile.cpp lines 135-246): a bounded array of
`MAX_PROFILE_TIME` data points, the index of the last valid point, a display
marker, and whether measured (live) thermocouple data is present.  The time
index is a tick count, hence modelled as `Nat`. -/
structure Plot where
  data : List DataPointFW
  lastValid : Nat
  marker : Int
  liveDataPresent : Bool
  deriving DecidableEq, Repr

namespace Plot

/-- `Plot::addTargetPoint` (runProfile.cpp lines 150-158): ignore the call
if `time >= MAX_PROFILE_TIME`; otherwise bump `lastValid` and set the target
temperature of `data[time]`. -/
def addTargetPoint (pl : Plot) (time : Nat) (temp : Rat) : Plot :=
  if time ≥ MAX_PROFILE_TIME then pl
  else
    { pl with
        lastValid := if time > pl.lastValid then time else pl.lastValid,
        data := pl.data.set time ((pl.data.getD time DataPointFW.zeroed).setTarget temp) }

/-- `Plot::addThermocouplePoint` (runProfile.cpp lines 167-176): ignore the
call if `time >= MAX_PROFILE_TIME`; otherwise mark live data present, bump
`lastValid` and record the thermocouple values in `data[time]`. -/
def addThermocouplePoint (pl : Plot) (time : Nat) (temps : List Rat) (active : Nat) : Plot :=
  if time ≥ MAX_PROFILE_TIME then pl
  else
    { pl with
        liveDataPresent := true,
        lastValid := if time > pl.lastValid then time else pl.lastValid,
        data := pl.data.set time ((pl.data.getD time DataPointFW.zeroed).addThermocouplePoint temps active) }

/-- `Plot::reset` (runProfile.cpp lines 181-186): zero the data array and
clear `lastValid`, `marker` and `liveDataPresent`. -/
def reset (_pl : Plot) : Plot :=
  { data := List.replicate MAX_PROFILE_TIME DataPointFW.zeroed,
    lastValid := 0, marker := 0, liveDataPresent := false }

/-- `Plot::getLastValid`. -/
def getLastValid (pl : Plot) : Nat := pl.lastValid

/-- `Plot::isLiveDataPresent`. -/
def isLiveDataPresent (pl : Plot) : Bool := pl.liveDataPresent

end Plot

/-- Modelled from the spec: `checkThermocouples` is declared in configure.h,
which is not part of the available sources; per spec §4.3/§7 it "validates
all sensor channels are usable (§4.1 — if fused temperature is undefined,
abort before starting)", and the fused temperature is undefined exactly when
zero channels have status `Enabled`.  Input: the status code of each
channel. -/
def checkThermocouples (statuses : List Nat) : Bool :=
  statuses.any (fun st => st = TH_ENABLED)

/-- The start-up prefix of `runProfile` (runProfile.cpp lines 976-1010), up
to and including starting the 1 Hz tick timer: refuse to start when
`checkThermocouples` fails or the operator declines the confirmation dialog;
otherwise enter `s_preheat` at time 0 with the setpoint at the measured
ambient temperature, set and enable the PID, and create/start the timer.
Returns the new executor state, the collaborator calls made, and whether the
run was started. -/
def runProfileStart (statuses : List Nat) (confirmed : Bool) (ambientTemp : Rat)
    (s : ExecState) : ExecState × List Action × Bool :=
  if !checkThermocouples statuses then (s, ([], false))
  else if !confirmed then (s, ([], false))
  else
    ({ s with state := .s_preheat, time := 0, ambient := ambientTemp, setpoint := ambientTemp },
     ([.pidSetSetpoint ambientTemp, .pidEnable true, .timerCreate, .timerStart], true))

/-- The termination path of `runProfile` (runProfile.cpp lines 1037-1050),
run after the wait loop observes `s_complete`/`s_fail` or an operator
cancel: the collaborator calls it makes, in source order. -/
def runProfileFinishActions : List Action :=
  [.pidSetSetpoint 0, .pidEnable false, .setHeaterDutycycle 0,
   .timerStop, .timerDestroy, .setFanDutycycle 100, .buzzerPlay]

end RunProfile

namespace RunProfile

/-- Profile of the spec §8 soak-timeout scenario:
`soakTemp1=100, soakTemp2=150, soakTime=60` (remaining fields arbitrary but
well-formed). -/
def profileSoakScenario : NvSolderProfile :=
  { ramp1Slope := 3, soakTemp1 := 100, soakTemp2 := 150, soakTime := 60,
    ramp2Slope := 1, peakTemp := 180, peakDwell := 15, rampDownSlope := -3 }

/-- Measured-temperature stream of the spec §8 soak-timeout scenario: the
oven reaches exactly 100 degrees at tick 30 and stays there, never reaching
the 145 degree relaxed threshold. -/
def tempStreamSoakScenario (t : Nat) : Rat := if 30 ≤ t then 100 else 25

/-- Executor state at run start for the soak-timeout scenario (as set up by
`runProfile`: `s_preheat`, time 0, setpoint = ambient = 25). -/
def initSoakScenario : ExecState :=
  { state := .s_preheat, time := 0, setpoint := 25, ambient := 25,
    startOfSoakTime := 0, startOfDwellTime := 0, timeout := 0 }

/-- The executor run of the soak-timeout scenario: state after `n` ticks. -/
def execIterSoakScenario : Nat → ExecState
  | 0 => initSoakScenario
  | n + 1 => (handler profileSoakScenario (tempStreamSoakScenario (n + 1)) (execIterSoakScenario n)).1

/-- A profile satisfying the monotonicity claim's hypotheses
(`soakTemp1 < soakTemp2 <= peakTemp`, positive ramp slopes, negative
ramp-down slope) whose preheat ramp overshoots `soakTemp1` by more than one
soak interpolation step. -/
def profileOvershoot : NvSolderProfile :=
  { ramp1Slope := 3, soakTemp1 := 100, soakTemp2 := 150, soakTime := 60,
    ramp2Slope := 1, peakTemp := 150, peakDwell := 10, rampDownSlope := -1 }

/-- Per-tick increment of the soak interpolation:
`(soakTemp2 - soakTemp1) / soakTime`. -/
def soakStep (p : NvSolderProfile) : Rat :=
  (p.soakTemp2 - p.soakTemp1) / ((p.soakTime : Int) : Rat)

namespace Draw

/-- Invariant of the preview iteration used to prove setpoint monotonicity:
in `s_preheat` the setpoint never exceeds `soakTemp1` by more than one soak
step, and in `s_soak` it never exceeds the value the interpolation will
assign on the next tick. -/
def InvD (p : NvSolderProfile) (s : DrawState) : Prop :=
  (s.state = .s_preheat → s.setpoint ≤ p.soakTemp1 + soakStep p) ∧
  (s.state = .s_soak →
    s.setpoint ≤ p.soakTemp1 + ((s.time + 1 - s.startOfSoakTime : Int) : Rat) * soakStep p)

/-- Preview-variant state for the ramp-down comparison: mid ramp-down with
the setpoint above the preview's constant floor of 50. -/
def rampDownDrawA : DrawState :=
  { state := .s_ramp_down, time := 200, setpoint := 55, startOfSoakTime := 30,
    startOfDwellTime := 180 }

/-- Preview-variant state at the preview's floor (setpoint 50), about to
terminate. -/
def rampDownDrawB : DrawState :=
  { state := .s_ramp_down, time := 200, setpoint := 50, startOfSoakTime := 30,
    startOfDwellTime := 180 }

end Draw

/-- Executor state matching `rampDownDrawA` on every field the preview
variant stores, with the run's captured ambient at 60 degrees. -/
def rampDownExecA : ExecState :=
  { state := .s_ramp_down, time := 200, setpoint := 55, ambient := 60,
    startOfSoakTime := 30, startOfDwellTime := 180, timeout := 0 }

/-- Executor state matching `rampDownDrawB` on every field the preview
variant stores, with the run's captured ambient at 60 degrees. -/
def rampDownExecB : ExecState :=
  { state := .s_ramp_down, time := 200, setpoint := 50, ambient := 60,
    startOfSoakTime := 30, startOfDwellTime := 180, timeout := 0 }

end RunProfile

open RunProfile

/-- Accumulation lemma for the averaging loops of `averageTemperature` /
`getAverageTemperature`: folding the conditional sum-and-count update over a
list yields the sum over, and the number of, the elements passing the
filter. -/
theorem foldl_avg_spec (q : Nat → Prop) [DecidablePred q] (g : Nat → Rat) :
    ∀ (l : List Nat) (a : Rat) (b : Nat),
      (l.foldl (fun (acc : Rat × Nat) i => if q i then (acc.1 + g i, acc.2 + 1) else acc) (a, b))
        = (a + ((l.filter (fun i => decide (q i))).map g).sum,
           b + ((l.filter (fun i => decide (q i))).length)) := by
  intro l
  induction l with
  | nil => intro a b; simp
  | cons hd tl ih =>
    intro a b
    rw [List.foldl_cons, List.filter_cons]
    by_cases hq : q hd
    · rw [if_pos hq, ih, if_pos (by simpa using hq)]
      simp only [List.map_cons, List.sum_cons, List.length_cons, Prod.mk.injEq]
      constructor
      · ring
      · omega
    · rw [if_neg hq, ih, if_neg (by simpa using hq)]

/-- Dividing each summand by a constant equals dividing the whole sum. -/
theorem sum_map_div_const (l : List Nat) (g : Nat → Rat) (c : Rat) :
    (l.map (fun i => g i / c)).sum = (l.map g).sum / c := by
  induction l with
  | nil => simp
  | cons hd tl ih => simp [ih, add_div]

/-- Closed form of `DataPoint::getAverageTemperature`: `none` when no
channel is enabled, otherwise the summed raw values divided by the scale and
by the number of enabled channels. -/
theorem getAverageTemperature_char (dp : DataPoint) :
    dp.getAverageTemperature =
      if dp.enabledIdx = [] then none
      else some (((dp.enabledIdx.map (fun i => (dp.fThermocouples.getD i 0 : Rat))).sum
              / DataPoint.FIXED_POINT_SCALE) / (dp.enabledIdx.length : Rat)) := by
  unfold DataPoint.getAverageTemperature
  rw [foldl_avg_spec (fun i => dp.getStatus i = TH_ENABLED)
      (fun i => (dp.fThermocouples.getD i 0 : Rat)) (List.range DataPoint.NUM_THERMOCOUPLES) 0 0]
  simp [DataPoint.enabledIdx, List.length_eq_zero]

/-- C1: the fused temperature computed by `DataPoint::getAverageTemperature`
is `NAN` (`none`) exactly when zero channels have status `Enabled`, is
otherwise the arithmetic mean of exactly the `Enabled` channels'
temperatures, and with exactly one `Enabled` channel recorded at 100 degrees
it equals 100 exactly. -/
theorem C1_fused_average (dp : DataPoint) :
    (dp.getAverageTemperature = none ↔ dp.enabledIdx = []) ∧
    (dp.enabledIdx ≠ [] → dp.getAverageTemperature = some dp.enabledMeanSpec) ∧
    (∀ i : Nat, dp.enabledIdx = [i] → dp.channelTemp i = 100 →
      dp.getAverageTemperature = some 100) := by
  have havg := getAverageTemperature_char dp
  have hmean : dp.enabledIdx ≠ [] → dp.getAverageTemperature = some dp.enabledMeanSpec := by
    intro hne
    rw [havg, if_neg hne]
    unfold DataPoint.enabledMeanSpec DataPoint.channelTemp
    rw [sum_map_div_const]
  refine ⟨?_, hmean, ?_⟩
  · rw [havg]
    constructor
    · intro h
      by_cases hne : dp.enabledIdx = []
      · exact hne
      · simp [hne] at h
    · intro h; simp [h]
  · intro i hsingle htemp
    rw [hmean (by simp [hsingle])]
    simp [DataPoint.enabledMeanSpec, hsingle, htemp]

/-- Witness for C1: a data point with channel 0 `Enabled` at raw value 10000
(100.00 degrees) and channels 1-3 `Disabled` (packed status word 0xFF80)
averages to exactly 100. -/
theorem C1_fused_average_witness :
    DataPoint.getAverageTemperature
      { fState_status := 65408, fHeater := 0, fFan := 0, fTargetTemp := 0,
        fThermocouples := [10000, 1234, 0, 77] } = some 100 :=
  (C1_fused_average _).2.2 0 (by with_unfolding_all decide) (by with_unfolding_all decide)

/-- C8: a channel whose status is `Disabled` has its reported temperature
forced to 0 by `Max31855::getEnabledReading`, and a channel whose recorded
status is not `Enabled` never contributes to the fused average: changing its
recorded temperature leaves `getAverageTemperature` unchanged, for every
data point (hence every combination of channel statuses). -/
theorem C8_disabled_never_averaged :
    (∀ reading : Rat × Nat, reading.2 = TH_DISABLED →
      (Max31855.getEnabledReading reading).1 = 0) ∧
    (∀ (dp : DataPoint) (i : Nat) (t : Rat), dp.getStatus i ≠ TH_ENABLED →
      (dp.setTemperature i t).getAverageTemperature = dp.getAverageTemperature) := by
  constructor
  · intro reading h
    simp [Max31855.getEnabledReading, h]
  · intro dp i t hne
    have hidx : (dp.setTemperature i t).enabledIdx = dp.enabledIdx := rfl
    rw [getAverageTemperature_char, getAverageTemperature_char, hidx]
    have hg : ∀ j ∈ dp.enabledIdx,
        (((dp.setTemperature i t).fThermocouples.getD j 0 : Rat))
          = ((dp.fThermocouples.getD j 0 : Rat)) := by
      intro j hj
      have hj0 : dp.getStatus j = TH_ENABLED := by
        have := (List.mem_filter.mp hj).2
        simpa using this
      have hij : i ≠ j := fun h => hne (h ▸ hj0)
      simp [DataPoint.setTemperature, List.getD_eq_getElem?_getD, List.getElem?_set_ne hij]
    rw [List.map_congr_left hg]

/-- Witness for C8: a disabled raw reading reports 0, and overwriting the
temperature of the disabled channel 1 of the C1 witness data point does not
change the average. -/
theorem C8_disabled_never_averaged_witness :
    (Max31855.getEnabledReading ((37 : Rat), 7)).1 = 0 ∧
    (DataPoint.setTemperature
      { fState_status := 65408, fHeater := 0, fFan := 0, fTargetTemp := 0,
        fThermocouples := [10000, 1234, 0, 77] } 1 55).getAverageTemperature =
    DataPoint.getAverageTemperature
      { fState_status := 65408, fHeater := 0, fFan := 0, fTargetTemp := 0,
        fThermocouples := [10000, 1234, 0, 77] } :=
  ⟨C8_disabled_never_averaged.1 _ rfl,
   C8_disabled_never_averaged.2 _ 1 55 (by with_unfolding_all decide)⟩

/-- C9: after `Plot::reset`, and before any add-point call, `getLastValid`
is 0 and `isLiveDataPresent` is false, whatever the prior plot state. -/
theorem C9_reset_clears (pl : Plot) :
    (pl.reset).getLastValid = 0 ∧ (pl.reset).isLiveDataPresent = false :=
  ⟨rfl, rfl⟩

/-- C10: `Plot::addTargetPoint` and `Plot::addThermocouplePoint` leave the
whole plot unchanged for any time index at or beyond `MAX_PROFILE_TIME`;
for an in-range index they write only `data[time]` (target update resp.
thermocouple update), set `lastValid` to `max lastValid time`, leave the
marker unchanged (and the live flag unchanged resp. set), so `lastValid`
never decreases and stays below the capacity, and the written index is in
bounds. -/
theorem C10_plot_bounds (pl : Plot) (time : Nat) (temp : Rat)
    (temps : List Rat) (active : Nat) :
    (MAX_PROFILE_TIME ≤ time →
      pl.addTargetPoint time temp = pl ∧ pl.addThermocouplePoint time temps active = pl) ∧
    (time < MAX_PROFILE_TIME →
      (pl.addTargetPoint time temp).data
          = pl.data.set time ((pl.data.getD time DataPointFW.zeroed).setTarget temp) ∧
      (pl.addTargetPoint time temp).lastValid = max pl.lastValid time ∧
      (pl.addTargetPoint time temp).liveDataPresent = pl.liveDataPresent ∧
      (pl.addTargetPoint time temp).marker = pl.marker ∧
      (pl.addThermocouplePoint time temps active).data
          = pl.data.set time
              ((pl.data.getD time DataPointFW.zeroed).addThermocouplePoint temps active) ∧
      (pl.addThermocouplePoint time temps active).lastValid = max pl.lastValid time ∧
      (pl.addThermocouplePoint time temps active).liveDataPresent = true ∧
      (pl.addThermocouplePoint time temps active).marker = pl.marker) ∧
    (pl.lastValid ≤ (pl.addTargetPoint time temp).lastValid ∧
     pl.lastValid ≤ (pl.addThermocouplePoint time temps active).lastValid) ∧
    (pl.lastValid < MAX_PROFILE_TIME →
      (pl.addTargetPoint time temp).lastValid < MAX_PROFILE_TIME ∧
      (pl.addThermocouplePoint time temps active).lastValid < MAX_PROFILE_TIME) := by
  by_cases h : MAX_PROFILE_TIME ≤ time
  case pos =>
    have hT : pl.addTargetPoint time temp = pl := by
      unfold Plot.addTargetPoint; rw [if_pos h]
    have hTh : pl.addThermocouplePoint time temps active = pl := by
      unfold Plot.addThermocouplePoint; rw [if_pos h]
    exact ⟨fun _ => ⟨hT, hTh⟩, fun hlt => absurd hlt (by omega), ⟨by rw [hT], by rw [hTh]⟩,
      fun hv => ⟨by rw [hT]; exact hv, by rw [hTh]; exact hv⟩⟩
  case neg =>
    have hmax : (if time > pl.lastValid then time else pl.lastValid) = max pl.lastValid time := by
      split <;> omega
    have hT : pl.addTargetPoint time temp =
        { pl with lastValid := max pl.lastValid time,
                  data := pl.data.set time ((pl.data.getD time DataPointFW.zeroed).setTarget temp) } := by
      unfold Plot.addTargetPoint; rw [if_neg h, hmax]
    have hTh : pl.addThermocouplePoint time temps active =
        { pl with liveDataPresent := true, lastValid := max pl.lastValid time,
                  data := pl.data.set time
                    ((pl.data.getD time DataPointFW.zeroed).addThermocouplePoint temps active) } := by
      unfold Plot.addThermocouplePoint; rw [if_neg h, hmax]
    refine ⟨fun hle => absurd hle h,
      fun _ => ⟨by rw [hT], by rw [hT], by rw [hT], by rw [hT],
                by rw [hTh], by rw [hTh], by rw [hTh], by rw [hTh]⟩,
      ⟨by rw [hT]; simp, by rw [hTh]; simp⟩,
      fun hv => ⟨by rw [hT]; simp; omega, by rw [hTh]; simp; omega⟩⟩

/-- Witness for C10: on a freshly reset plot, an add at index 600 is ignored
and an add at index 3 raises `lastValid` to 3. -/
theorem C10_plot_bounds_witness :
    ((Plot.reset { data := [], lastValid := 0, marker := 0, liveDataPresent := false
     }).addTargetPoint 600 7
      = Plot.reset { data := [], lastValid := 0, marker := 0, liveDataPresent := false }) ∧
    ((Plot.reset { data := [], lastValid := 0, marker := 0, liveDataPresent := false
     }).addTargetPoint 3 7).lastValid = max 0 3 :=
  ⟨((C10_plot_bounds _ 600 7 [] 0).1 (by decide)).1,
   (((C10_plot_bounds _ 3 7 [] 0).2.1 (by decide)).2.1)⟩

/-- C2: in `s_soak`, once the tick's time has passed `startOfSoak +
soakTime`, the setpoint has reached `soakTemp2` (so the timeout counter is
no longer being reset) and the measured temperature is below the relaxed
threshold `soakTemp2 - 5`, the executor transitions to `s_fail` as soon as
the timeout counter passes 40; concretely, for the profile
`soakTemp1=100, soakTemp2=150, soakTime=60` with the measured temperature
reaching 100 at tick 30 and never reaching 145, the state is `s_fail` at
tick 135 (the actual transition happens at tick 130). -/
theorem C2_soak_timeout_fail :
    (∀ (p : NvSolderProfile) (temp : Rat) (s : ExecState),
        s.state = .s_soak →
        ¬ s.setpoint < p.soakTemp2 →
        s.time + 1 ≥ s.startOfSoakTime + p.soakTime →
        temp < p.soakTemp2 - delta →
        40 ≤ s.timeout →
        (handler p temp s).1.state = .s_fail) ∧
    (execIterSoakScenario 135).state = .s_fail := by
  constructor
  · intro p temp s hstate hsp helapsed htemp htout
    obtain ⟨st, tm, sp, am, ss, sd, tout⟩ := s
    simp only at hstate hsp helapsed htout
    subst hstate
    simp only [handler, if_neg hsp]
    have hcond : ¬ (temp ≥ p.soakTemp2 ∨ (tout > 5 ∧ temp ≥ p.soakTemp2 - delta)) := by
      rintro (h1 | ⟨_, h2⟩)
      · simp [delta] at htemp; linarith
      · exact absurd h2 (not_le.mpr htemp)
    rw [if_pos helapsed, if_neg hcond, if_pos (by omega)]
  · with_unfolding_all decide

/-- Witness for C2: the single-step part applied at a soak state 41 ticks
into the timeout with the oven stuck at 100 degrees. -/
theorem C2_soak_timeout_fail_witness :
    (handler profileSoakScenario 100
      { state := .s_soak, time := 95, setpoint := 150, ambient := 25,
        startOfSoakTime := 30, startOfDwellTime := 0, timeout := 41 }).1.state = .s_fail :=
  C2_soak_timeout_fail.1 profileSoakScenario 100 _ rfl (by norm_num [profileSoakScenario])
    (by norm_num [profileSoakScenario]) (by norm_num [delta, profileSoakScenario]) (by norm_num)

/-- C3 counterexample: in the handler's `s_fail` case the first collaborator
call is `pid.setSetpoint(0)`, then `pid.enable(false)`; disabling the heater
output is only the third action, and `runProfile`'s termination path opens
the same way — so heater disable is not the first action of the failure
bookkeeping. -/
theorem C3_counterexample_first_action :
    (handler profileSoakScenario 25
      { state := .s_fail, time := 10, setpoint := 80, ambient := 25,
        startOfSoakTime := 0, startOfDwellTime := 0, timeout := 0 }).2
      = [.pidSetSetpoint 0, .pidEnable false, .setHeaterDutycycle 0, .setFanDutycycle 0] ∧
    (handler profileSoakScenario 25
      { state := .s_fail, time := 10, setpoint := 80, ambient := 25,
        startOfSoakTime := 0, startOfDwellTime := 0, timeout := 0 }).2.head?
      ≠ some (.setHeaterDutycycle 0) ∧
    runProfileFinishActions.head? ≠ some (.setHeaterDutycycle 0) := by
  refine ⟨rfl, ?_, ?_⟩ <;> with_unfolding_all decide

/-- C3 as amended: on the failure/termination paths the heater output is
disabled before any fan change, but only after the PID setpoint is zeroed
and the PID is disabled; the handler's `s_fail`/`s_complete` case emits
exactly `[setSetpoint 0, enable false, heater 0, fan 0]`, the phase-timeout
transition tick itself emits no collaborator call, and `runProfile`'s
termination path is `[setSetpoint 0, enable false, heater 0, timer stop,
timer destroy, fan 100, buzzer]`. -/
theorem C3_amended_failure_actions :
    (∀ (p : NvSolderProfile) (temp : Rat) (s : ExecState),
        s.state = .s_fail ∨ s.state = .s_complete →
        (handler p temp s).2 =
          [.pidSetSetpoint 0, .pidEnable false, .setHeaterDutycycle 0, .setFanDutycycle 0]) ∧
    (∀ (p : NvSolderProfile) (temp : Rat) (s : ExecState),
        s.state = .s_preheat → ¬ s.setpoint < p.soakTemp1 →
        (handler p temp s).2 = []) ∧
    runProfileFinishActions =
      [.pidSetSetpoint 0, .pidEnable false, .setHeaterDutycycle 0,
       .timerStop, .timerDestroy, .setFanDutycycle 100, .buzzerPlay] := by
  refine ⟨?_, ?_, rfl⟩
  · intro p temp s h
    obtain ⟨st, tm, sp, am, ss, sd, tout⟩ := s
    simp only at h
    rcases h with h | h <;> subst h <;> rfl
  · intro p temp s hstate hsp
    obtain ⟨st, tm, sp, am, ss, sd, tout⟩ := s
    simp only at hstate hsp
    subst hstate
    simp only [handler, if_neg hsp]

/-- Witness for C3 (amended): the handler applied in a complete state, and a
preheat timeout tick emitting nothing. -/
theorem C3_amended_failure_actions_witness :
    (handler profileSoakScenario 25
      { state := .s_complete, time := 300, setpoint := 25, ambient := 25,
        startOfSoakTime := 30, startOfDwellTime := 200, timeout := 0 }).2
      = [.pidSetSetpoint 0, .pidEnable false, .setHeaterDutycycle 0, .setFanDutycycle 0] ∧
    (handler profileSoakScenario 25
      { state := .s_preheat, time := 40, setpoint := 100, ambient := 25,
        startOfSoakTime := 0, startOfDwellTime := 0, timeout := 3 }).2 = [] :=
  ⟨C3_amended_failure_actions.1 profileSoakScenario 25 _ (Or.inr rfl),
   C3_amended_failure_actions.2.1 profileSoakScenario 25 _ rfl (by norm_num [profileSoakScenario])⟩

/-- C4: in `s_preheat` with the setpoint at or past `soakTemp1` and the
measured temperature exactly `soakTemp1 - 5`, the tick on which the timeout
counter reads 6 (the first value satisfying the strict `timeout > 5`) takes
the relaxed-threshold exit to `s_soak`, and the tick on which it reads 5
does not (the state stays `s_preheat`). -/
theorem C4_preheat_relaxed_boundary (p : NvSolderProfile) (temp : Rat) (s : ExecState)
    (hstate : s.state = .s_preheat) (hsp : ¬ s.setpoint < p.soakTemp1)
    (htemp : temp = p.soakTemp1 - 5) :
    (s.timeout = 6 → (handler p temp s).1.state = .s_soak) ∧
    (s.timeout = 5 → (handler p temp s).1.state = .s_preheat) := by
  obtain ⟨st, tm, sp, am, ss, sd, tout⟩ := s
  simp only at hstate hsp
  subst hstate
  constructor
  · intro h6
    simp only at h6
    subst h6
    simp only [handler, if_neg hsp]
    have hcond : (temp ≥ p.soakTemp1 ∨ ((6 : Int) > 5 ∧ temp ≥ p.soakTemp1 - delta)) :=
      Or.inr ⟨by norm_num, by simp [htemp, delta]⟩
    rw [if_pos hcond]
    norm_num
  · intro h5
    simp only at h5
    subst h5
    simp only [handler, if_neg hsp]
    have hcond : ¬ (temp ≥ p.soakTemp1 ∨ ((5 : Int) > 5 ∧ temp ≥ p.soakTemp1 - delta)) := by
      rintro (h1 | ⟨h2, _⟩)
      · rw [htemp] at h1; linarith
      · norm_num at h2
    rw [if_neg hcond]
    norm_num

/-- Witness for C4: with `soakTemp1 = 100` and the oven at 95 degrees, the
tick with timeout counter 6 enters `s_soak` and the tick with counter 5
stays in `s_preheat`. -/
theorem C4_preheat_relaxed_boundary_witness :
    (handler profileSoakScenario 95
      { state := .s_preheat, time := 40, setpoint := 100, ambient := 25,
        startOfSoakTime := 0, startOfDwellTime := 0, timeout := 6 }).1.state = .s_soak ∧
    (handler profileSoakScenario 95
      { state := .s_preheat, time := 40, setpoint := 100, ambient := 25,
        startOfSoakTime := 0, startOfDwellTime := 0, timeout := 5 }).1.state = .s_preheat :=
  ⟨(C4_preheat_relaxed_boundary profileSoakScenario 95 _ rfl (by norm_num [profileSoakScenario])
      (by norm_num [profileSoakScenario])).1 rfl,
   (C4_preheat_relaxed_boundary profileSoakScenario 95 _ rfl (by norm_num [profileSoakScenario])
      (by norm_num [profileSoakScenario])).2 rfl⟩

/-- C7: started with zero usable sensor channels (no channel has status
`Enabled`), `runProfile` returns before starting: no collaborator call is
made (no heater/fan change, no PID enable, no timer start) and the executor
state is unchanged. The missing `checkThermocouples` is modelled from the
spec. -/
theorem C7_no_start_without_sensors (statuses : List Nat) (confirmed : Bool)
    (amb : Rat) (s : ExecState) (h : ∀ st ∈ statuses, st ≠ TH_ENABLED) :
    runProfileStart statuses confirmed amb s = (s, ([], false)) := by
  have hchk : checkThermocouples statuses = false := by
    simp only [checkThermocouples, List.any_eq_false, decide_eq_true_eq]
    exact h
  simp [runProfileStart, hchk]

/-- Witness for C7: all four channels faulted or disabled. -/
theorem C7_no_start_without_sensors_witness :
    runProfileStart [1, 4, 7, 7] true 25
      { state := .s_off, time := 0, setpoint := 0, ambient := 0,
        startOfSoakTime := 0, startOfDwellTime := 0, timeout := 0 }
      = ({ state := .s_off, time := 0, setpoint := 0, ambient := 0,
           startOfSoakTime := 0, startOfDwellTime := 0, timeout := 0 }, ([], false)) :=
  C7_no_start_without_sensors [1, 4, 7, 7] true 25 _ (by decide)

/-- Positivity of the soak interpolation step for a well-formed profile. -/
theorem soakStep_nonneg (p : NvSolderProfile) (h1 : p.soakTemp1 < p.soakTemp2)
    (h6 : 0 < p.soakTime) : 0 ≤ soakStep p := by
  unfold soakStep
  apply div_nonneg (le_of_lt (sub_pos.mpr h1))
  exact_mod_cast le_of_lt h6

/-- The preview-monotonicity invariant holds at the start of `Draw::plot`. -/
theorem InvD_drawInit (p : NvSolderProfile) (h8 : 50 ≤ p.soakTemp1)
    (hstep : 0 ≤ soakStep p) : Draw.InvD p Draw.drawInit := by
  constructor
  · intro _
    show (50 : Rat) ≤ _
    linarith
  · intro h
    exact absurd h (by simp [Draw.drawInit])

/-- The preview-monotonicity invariant is preserved by `Draw::calculate`
when the preheat ramp cannot overshoot a soak interpolation step. -/
theorem InvD_step (p : NvSolderProfile) (h7 : p.ramp1Slope ≤ soakStep p)
    (hstep : 0 ≤ soakStep p) (s : Draw.DrawState) (hI : Draw.InvD p s) :
    Draw.InvD p (Draw.calculate p s) := by
  obtain ⟨st, tm, sp, ss, sd⟩ := s
  obtain ⟨hpre, hsoak⟩ := hI
  simp only at hpre hsoak
  cases st <;> simp only [Draw.calculate]
  case s_preheat =>
    split_ifs with hlt
    · refine ⟨fun _ => ?_, fun h => absurd h (by simp)⟩
      have hb := hpre rfl
      show sp + p.ramp1Slope ≤ p.soakTemp1 + soakStep p
      linarith
    · refine ⟨fun h => absurd h (by simp), fun _ => ?_⟩
      have hb := hpre rfl
      have hcast : ((tm + 1 + 1 - (tm + 1) : Int) : Rat) = 1 := by push_cast; ring
      show sp ≤ p.soakTemp1 + ((tm + 1 + 1 - (tm + 1) : Int) : Rat) * soakStep p
      rw [hcast, one_mul]
      exact hb
  case s_soak =>
    have hcast : ((tm + 1 + 1 - ss : Int) : Rat) = ((tm + 1 - ss : Int) : Rat) + 1 := by
      push_cast; ring
    split_ifs with hlt htime htime
    · exact ⟨fun h => absurd h (by simp), fun h => absurd h (by simp)⟩
    · refine ⟨fun h => absurd h (by simp), fun _ => ?_⟩
      show p.soakTemp1 + ((tm + 1 - ss : Int) : Rat) * (p.soakTemp2 - p.soakTemp1) / ((p.soakTime : Int) : Rat)
          ≤ p.soakTemp1 + ((tm + 1 + 1 - ss : Int) : Rat) * soakStep p
      rw [mul_div_assoc, hcast]
      have hmono : ((tm + 1 - ss : Int) : Rat) * soakStep p
          ≤ (((tm + 1 - ss : Int) : Rat) + 1) * soakStep p := by nlinarith
      unfold soakStep at hmono ⊢
      linarith
    · exact ⟨fun h => absurd h (by simp), fun h => absurd h (by simp)⟩
    · refine ⟨fun h => absurd h (by simp), fun _ => ?_⟩
      have hb := hsoak rfl
      show sp ≤ p.soakTemp1 + ((tm + 1 + 1 - ss : Int) : Rat) * soakStep p
      rw [hcast]
      nlinarith
  case s_off => exact ⟨fun h => absurd h (by simp), fun h => absurd h (by simp)⟩
  case s_fail => exact ⟨fun h => absurd h (by simp), fun h => absurd h (by simp)⟩
  case s_init => exact ⟨fun h => absurd h (by simp), fun h => absurd h (by simp)⟩
  case s_manual => exact ⟨fun h => absurd h (by simp), fun h => absurd h (by simp)⟩
  case s_complete => exact ⟨fun h => absurd h (by simp), fun h => absurd h (by simp)⟩
  case s_ramp_up =>
    split_ifs <;> exact ⟨fun h => absurd h (by simp), fun h => absurd h (by simp)⟩
  case s_dwell =>
    split_ifs <;> exact ⟨fun h => absurd h (by simp), fun h => absurd h (by simp)⟩
  case s_ramp_down =>
    split_ifs <;> exact ⟨fun h => absurd h (by simp), fun h => absurd h (by simp)⟩

/-- One `Draw::calculate` step never decreases the setpoint in the heating
states (given the invariant) and never increases it in `s_ramp_down`. -/
theorem mono_step (p : NvSolderProfile) (h3 : 0 < p.ramp1Slope) (h4 : 0 < p.ramp2Slope)
    (h5 : p.rampDownSlope < 0) (s : Draw.DrawState) (hI : Draw.InvD p s) :
    ((s.state = .s_preheat ∨ s.state = .s_soak ∨ s.state = .s_ramp_up ∨ s.state = .s_dwell) →
        s.setpoint ≤ (Draw.calculate p s).setpoint) ∧
    (s.state = .s_ramp_down → (Draw.calculate p s).setpoint ≤ s.setpoint) := by
  obtain ⟨st, tm, sp, ss, sd⟩ := s
  obtain ⟨hpre, hsoak⟩ := hI
  simp only at hpre hsoak ⊢
  cases st <;> simp only [Draw.calculate]
  case s_preheat =>
    refine ⟨fun _ => ?_, fun h => absurd h (by simp)⟩
    split_ifs with hlt
    · show sp ≤ sp + p.ramp1Slope
      linarith
    · exact le_refl sp
  case s_soak =>
    refine ⟨fun _ => ?_, fun h => absurd h (by simp)⟩
    have hb := hsoak rfl
    split_ifs with hlt htime htime
    · show sp ≤ p.soakTemp1 + ((tm + 1 - ss : Int) : Rat) * (p.soakTemp2 - p.soakTemp1) / ((p.soakTime : Int) : Rat)
      rw [mul_div_assoc]
      unfold soakStep at hb
      exact hb
    · show sp ≤ p.soakTemp1 + ((tm + 1 - ss : Int) : Rat) * (p.soakTemp2 - p.soakTemp1) / ((p.soakTime : Int) : Rat)
      rw [mul_div_assoc]
      unfold soakStep at hb
      exact hb
    · exact le_refl sp
    · exact le_refl sp
  case s_ramp_up =>
    refine ⟨fun _ => ?_, fun h => absurd h (by simp)⟩
    split_ifs with hlt
    · show sp ≤ sp + p.ramp2Slope
      linarith
    · exact le_refl sp
  case s_dwell =>
    refine ⟨fun _ => ?_, fun h => absurd h (by simp)⟩
    split_ifs <;> exact le_refl sp
  case s_ramp_down =>
    refine ⟨fun h => by simp at h, fun _ => ?_⟩
    split_ifs with hgt
    · show sp + p.rampDownSlope ≤ sp
      linarith
    · exact le_refl sp
  case s_off => exact ⟨fun h => by simp at h, fun h => by simp at h⟩
  case s_fail => exact ⟨fun h => by simp at h, fun h => by simp at h⟩
  case s_init => exact ⟨fun h => by simp at h, fun h => by simp at h⟩
  case s_manual => exact ⟨fun h => by simp at h, fun h => by simp at h⟩
  case s_complete => exact ⟨fun h => by simp at h, fun h => by simp at h⟩

/-- C5 counterexample: `profileOvershoot` satisfies every hypothesis of the
claim (`soakTemp1 < soakTemp2 <= peakTemp`, positive ramp slopes, negative
ramp-down slope), yet the preview setpoint strictly decreases between ticks
18 and 19 although tick 18 is in `s_soak` (a tick inside the claimed
non-decreasing Preheat-through-Dwell phase): the preheat ramp overshoots
`soakTemp1` to 101 and the first soak interpolation pulls it back
to 100+5/6. -/
theorem C5_counterexample_overshoot :
    (profileOvershoot.soakTemp1 < profileOvershoot.soakTemp2 ∧
     profileOvershoot.soakTemp2 ≤ profileOvershoot.peakTemp ∧
     0 < profileOvershoot.ramp1Slope ∧ 0 < profileOvershoot.ramp2Slope ∧
     profileOvershoot.rampDownSlope < 0) ∧
    (Draw.drawIter profileOvershoot 18).state = .s_soak ∧
    (Draw.drawIter profileOvershoot 19).state = .s_soak ∧
    (Draw.drawIter profileOvershoot 19).setpoint < (Draw.drawIter profileOvershoot 18).setpoint := by
  refine ⟨⟨?_, ?_, ?_, ?_, ?_⟩, ?_, ?_, ?_⟩ <;> with_unfolding_all decide

/-- C5 as amended: for profiles additionally satisfying `0 < soakTime`,
`ramp1Slope <= (soakTemp2 - soakTemp1)/soakTime` (the preheat ramp cannot
overshoot a soak interpolation step) and `50 <= soakTemp1` (the profile
starts above the preview's 50 degree base), the preview setpoint sequence is
non-decreasing on every tick starting in Preheat/Soak/RampUp/Dwell and
non-increasing on every tick starting in RampDown. -/
theorem C5_amended_monotone (p : NvSolderProfile)
    (h1 : p.soakTemp1 < p.soakTemp2) (h2 : p.soakTemp2 ≤ p.peakTemp)
    (h3 : 0 < p.ramp1Slope) (h4 : 0 < p.ramp2Slope) (h5 : p.rampDownSlope < 0)
    (h6 : 0 < p.soakTime) (h7 : p.ramp1Slope ≤ soakStep p) (h8 : 50 ≤ p.soakTemp1) :
    ∀ n : Nat,
      (((Draw.drawIter p n).state = .s_preheat ∨ (Draw.drawIter p n).state = .s_soak ∨
        (Draw.drawIter p n).state = .s_ramp_up ∨ (Draw.drawIter p n).state = .s_dwell) →
          (Draw.drawIter p n).setpoint ≤ (Draw.drawIter p (n + 1)).setpoint) ∧
      ((Draw.drawIter p n).state = .s_ramp_down →
          (Draw.drawIter p (n + 1)).setpoint ≤ (Draw.drawIter p n).setpoint) := by
  have hstep := soakStep_nonneg p h1 h6
  have hInv : ∀ n : Nat, Draw.InvD p (Draw.drawIter p n) := by
    intro n
    induction n with
    | zero => exact InvD_drawInit p h8 hstep
    | succ k ih => exact InvD_step p h7 hstep (Draw.drawIter p k) ih
  intro n
  exact mono_step p h3 h4 h5 (Draw.drawIter p n) (hInv n)

/-- Witness for C5 (amended): a gentle profile (`ramp1Slope = 1/2`, one soak
step is `5/6`) is monotone at tick 0. -/
theorem C5_amended_monotone_witness :
    (Draw.drawIter
      { ramp1Slope := 1/2, soakTemp1 := 100, soakTemp2 := 150, soakTime := 60,
        ramp2Slope := 1, peakTemp := 180, peakDwell := 15, rampDownSlope := -3 } 0).setpoint
    ≤ (Draw.drawIter
      { ramp1Slope := 1/2, soakTemp1 := 100, soakTemp2 := 150, soakTime := 60,
        ramp2Slope := 1, peakTemp := 180, peakDwell := 15, rampDownSlope := -3 } 1).setpoint :=
  (C5_amended_monotone _ (by norm_num) (by norm_num) (by norm_num) (by norm_num)
      (by norm_num) (by norm_num) (by norm_num [soakStep]) (by norm_num) 0).1
    (Or.inl (by with_unfolding_all decide))

/-- C6 counterexample: two behavioural differences between `Draw::calculate`
and the live `handler` that are neither the driving-signal difference nor
the missing timeout path.  With every preview-stored field equal
(`rampDownDrawA` vs `rampDownExecA`, ambient 60): the per-tick ramp-down
setpoint updates differ, because the preview ramps down to the constant
floor 50 while the executor ramps down to the captured ambient; and at the
end of ramp-down the preview terminates in `s_off` while the executor
terminates in `s_complete`. -/
theorem C6_counterexample_rampdown :
    (Draw.rampDownDrawA.state = rampDownExecA.state ∧
     Draw.rampDownDrawA.time = rampDownExecA.time ∧
     Draw.rampDownDrawA.setpoint = rampDownExecA.setpoint ∧
     Draw.rampDownDrawA.startOfSoakTime = rampDownExecA.startOfSoakTime ∧
     Draw.rampDownDrawA.startOfDwellTime = rampDownExecA.startOfDwellTime) ∧
    (Draw.calculate profileOvershoot Draw.rampDownDrawA).setpoint
      ≠ (handler profileOvershoot 59 rampDownExecA).1.setpoint ∧
    (Draw.calculate profileOvershoot Draw.rampDownDrawB).state = .s_off ∧
    (handler profileOvershoot 59 rampDownExecB).1.state = .s_complete ∧
    State.s_off ≠ State.s_complete := by
  refine ⟨⟨?_, ?_, ?_, ?_, ?_⟩, ?_, ?_, ?_, ?_⟩ <;> with_unfolding_all decide

/-- C6 as amended: for states holding the same stored fields, the preview
variant `Draw::calculate` and the live `handler` compute identical per-tick
setpoint updates and times in Preheat, Soak, RampUp and Dwell (for every
measured temperature), an identical Dwell transition, and an identical
ramp-down setpoint update whenever the executor's captured ambient equals
the preview's constant floor of 50; the remaining differences are the
temperature/timeout-driven transitions plus the ramp-down floor (constant 50
vs ambient) and the terminal state (`s_off` vs `s_complete`). -/
theorem C6_amended_correspondence :
    (∀ (p : NvSolderProfile) (temp : Rat) (st : State) (tm : Int) (sp am : Rat)
        (ss sd tout : Int),
        (st = .s_preheat ∨ st = .s_soak ∨ st = .s_ramp_up ∨ st = .s_dwell) →
        (Draw.calculate p ⟨st, tm, sp, ss, sd⟩).setpoint
            = (handler p temp ⟨st, tm, sp, am, ss, sd, tout⟩).1.setpoint ∧
        (Draw.calculate p ⟨st, tm, sp, ss, sd⟩).time
            = (handler p temp ⟨st, tm, sp, am, ss, sd, tout⟩).1.time) ∧
    (∀ (p : NvSolderProfile) (temp : Rat) (tm : Int) (sp am : Rat) (ss sd tout : Int),
        (Draw.calculate p ⟨.s_dwell, tm, sp, ss, sd⟩).state
            = (handler p temp ⟨.s_dwell, tm, sp, am, ss, sd, tout⟩).1.state) ∧
    (∀ (p : NvSolderProfile) (temp : Rat) (tm : Int) (sp : Rat) (ss sd tout : Int),
        (Draw.calculate p ⟨.s_ramp_down, tm, sp, ss, sd⟩).setpoint
            = (handler p temp ⟨.s_ramp_down, tm, sp, (50 : Rat), ss, sd, tout⟩).1.setpoint) := by
  refine ⟨?_, ?_, ?_⟩
  · intro p temp st tm sp am ss sd tout h
    rcases h with h | h | h | h <;> subst h <;>
      simp only [Draw.calculate, handler] <;>
      split_ifs <;> simp_all
  · intro p temp tm sp am ss sd tout
    simp only [Draw.calculate, handler]
    split_ifs <;> rfl
  · intro p temp tm sp ss sd tout
    simp only [Draw.calculate, handler]
    split_ifs <;> simp_all

/-- Witness for C6 (amended): a preheat tick computes the same setpoint in
both variants. -/
theorem C6_amended_correspondence_witness :
    (Draw.calculate profileOvershoot ⟨.s_preheat, 5, 65, 0, 0⟩).setpoint
      = (handler profileOvershoot 27 ⟨.s_preheat, 5, 65, 25, 0, 0, 0⟩).1.setpoint :=
  (C6_amended_correspondence.1 profileOvershoot 27 .s_preheat 5 65 25 0 0 0
    (Or.inl rfl)).1
